import Mathlib

/-
Verification of the booking allocation and lifecycle engine of the
Botdiscord coaching bot.

The embedding models, in minutes as integers:
  * the availability resolver of utils/google_calendar.py
    (GoogleCalendarManager.get_available_slots),
  * the persistent store rows of database/models.py (Client, Booking,
    Feedback) together with the commit semantics of database/db.py
    (get_session commits on normal exit of the with-block, also on an
    early return from inside the block),
  * the booking commit, reschedule and cancellation operations of
    cogs/tickets.py (Tickets.slot_selected, Tickets.handle_cancel_booking),
  * the periodic jobs of cogs/reminders.py and cogs/feedback.py,
  * the ticket admission guard of BookingButtonView.booking_button as a
    small-step transition system over interleaved button presses.
-/

namespace Botdiscord

/-! ### Configuration constants (config.py, environment defaults) -/

def STATUS_CONFIRMED : String := "confirmed"

def STATUS_COMPLETED : String := "completed"

def STATUS_CANCELLED : String := "cancelled"

def STATUS_NO_SHOW : String := "no_show"

def BOOKING_TYPE_FREE : String := "gratuit"

def BOOKING_TYPE_PAID : String := "payant"

def FREE_COACHING_DURATION : Int := 60

def PAID_COACHING_DURATION : Int := 60

def REMINDER_24H_ENABLED : Bool := true

def REMINDER_1H_ENABLED : Bool := true

/-- String-valued module attributes defined at top level of config.py.
Reading any other name from the module raises AttributeError, modelled
as `none`.  In particular config.py defines no STATUS_PENDING_SCHEDULE
(its status block stops at STATUS_NO_SHOW), even though
cogs/reminders.py line 246 reads that name. -/
def configStrAttr (name : String) : Option String :=
  if name = "STATUS_CONFIRMED" then some "confirmed"
  else if name = "STATUS_COMPLETED" then some "completed"
  else if name = "STATUS_CANCELLED" then some "cancelled"
  else if name = "STATUS_NO_SHOW" then some "no_show"
  else if name = "BOOKING_TYPE_FREE" then some "gratuit"
  else if name = "BOOKING_TYPE_PAID" then some "payant"
  else if name = "BOT_PREFIX" then some "/"
  else if name = "DATABASE_URL" then some "sqlite:///deg_bot.db"
  else if name = "TICKET_NAME_FORMAT" then some "ticket-\x7busername\x7d-\x7bnumber\x7d"
  else none

/-- Integer-valued module attributes defined at top level of config.py
(with their documented environment defaults).  config.py defines no
PACK_EXPIRY_DAYS even though cogs/reminders.py line 242 reads that name. -/
def configIntAttr (name : String) : Option Int :=
  if name = "GUILD_ID" then some 0
  else if name = "COACH_ROLE_ID" then some 0
  else if name = "STUDENT_ROLE_ID" then some 0
  else if name = "TICKET_CATEGORY_ID" then some 0
  else if name = "ANNOUNCEMENT_CHANNEL_ID" then some 0
  else if name = "FEEDBACK_CHANNEL_ID" then some 0
  else if name = "LOG_CHANNEL_ID" then some 0
  else if name = "BOOKING_SLOT_DURATION" then some 60
  else if name = "FREE_COACHING_DURATION" then some 60
  else if name = "PAID_COACHING_DURATION" then some 60
  else if name = "TICKET_AUTO_CLOSE_MINUTES" then some 30
  else none

/-! ### Availability resolver (utils/google_calendar.py, get_available_slots)

Instants are minutes since an arbitrary midnight epoch (natural numbers);
a day is 1440 minutes, so the local hour of `t` is `t % 1440 / 60`.
Busy intervals are pairs (eventStart, eventEnd) in the same scale. -/

/-- Local hour of an instant given in minutes. -/
def hourOf (t : Nat) : Nat := t % 1440 / 60

/-- Overlap test of get_available_slots line 104:
`current_time < event_end and slot_end > event_start`. -/
def overlapsBusy (slotStart slotEnd : Nat) (e : Nat × Nat) : Bool :=
  decide (slotStart < e.2) && decide (slotEnd > e.1)

/-- Lines 85-86: `current_time += timedelta(days=1)` then
`replace(hour=9, minute=0, ...)`. -/
def nextDayNine (t : Nat) : Nat := (t / 1440 + 1) * 1440 + 540

/-- The while-loop of get_available_slots lines 82-112.  Appends the
candidate start when it overlaps no busy event, advancing by 30 minutes;
candidates outside 09:00-19:59 jump to the next day 09:00.  `fuel`
bounds the number of loop iterations for structural recursion; the
source loop terminates because `current` strictly increases at every
iteration while staying below `endDate`, so `endDate` iterations always
suffice (the caller below passes exactly that bound). -/
def slotsLoop (fuel : Nat) (endDate : Nat) (events : List (Nat × Nat))
    (dur : Nat) (current : Nat) : List Nat :=
  match fuel with
  | 0 => []
  | fuel + 1 =>
    if current < endDate then
      if hourOf current < 9 ∨ 20 ≤ hourOf current then
        slotsLoop fuel endDate events dur (nextDayNine current)
      else
        (if events.all (fun e => !(overlapsBusy current (current + dur) e)) then
          [current]
        else []) ++ slotsLoop fuel endDate events dur (current + 30)
    else []

/-- get_available_slots lines 77-114: the cursor starts at
`start_date.replace(hour=9, minute=0, second=0, microsecond=0)`. -/
def get_available_slots (startDate endDate : Nat) (events : List (Nat × Nat))
    (durationMinutes : Nat) : List Nat :=
  slotsLoop endDate endDate events durationMinutes (startDate / 1440 * 1440 + 540)

/-! ### Persistent store rows (database/models.py)

Instants (scheduled_at, created_at, now) are minutes as integers. -/

/-- Client row, models.py lines 10-24. -/
structure Client where
  id : Int
  discord_id : String
  discord_name : String
  created_at : Int
  total_sessions : Int
deriving DecidableEq, Repr

/-- Booking row, models.py lines 30-49.  The declared columns are
exactly id, client_id, google_event_id, booking_type, scheduled_at,
duration_minutes, status, created_at, ticket_channel_id, notes.
`extra` models Python instance attributes that are NOT backed by a
declared column (the model declares no reminder_24h_sent or
reminder_1h_sent column): a row freshly loaded from the database has
`extra = []`, reading an absent name raises AttributeError, and a value
written there is never persisted. -/
structure Booking where
  id : Int
  client_id : Int
  google_event_id : Option String
  booking_type : String
  scheduled_at : Int
  duration_minutes : Int
  status : String
  created_at : Int
  ticket_channel_id : Option String
  notes : Option String
  extra : List (String × Bool)
deriving DecidableEq, Repr

/-- The database state visible to the operations under verification:
client rows, booking rows, the booking_id column of the feedback rows,
and the autoincrement counters assigned at session.flush(). -/
structure DB where
  clients : List Client
  bookings : List Booking
  feedbackBookingIds : List Int
  nextClientId : Int
  nextBookingId : Int
deriving DecidableEq, Repr

/-! ### Cancellation (cogs/tickets.py, Tickets.handle_cancel_booking, lines 872-942) -/

inductive CancelResult
  | notFound
  | alreadyCancelled
  | cancelled
deriving DecidableEq, Repr

/-- handle_cancel_booking: look the booking up by id; missing row or an
already cancelled row answers with an error and changes nothing; else the
status is set to cancelled, committed, and the calendar event (when one
exists) is deleted.  The third component lists the calendar event ids
passed to calendar_manager.delete_event. -/
def handle_cancel_booking (db : DB) (bookingId : Int) :
    DB × CancelResult × List String :=
  match db.bookings.find? (fun b => b.id == bookingId) with
  | none => (db, .notFound, [])
  | some b =>
    if b.status = STATUS_CANCELLED then
      (db, .alreadyCancelled, [])
    else
      ({ db with bookings := db.bookings.map (fun x =>
          if x.id == bookingId then { x with status := STATUS_CANCELLED } else x) },
       .cancelled,
       match b.google_event_id with
       | some e => [e]
       | none => [])

/-! ### Slot selection (cogs/tickets.py, Tickets.slot_selected, lines 565-812)

The calendar provider is external: the outcome of
calendar_manager.create_booking_event is a parameter of type
`Option String` (`none` models the provider returning None). -/

inductive RescheduleResult
  | notFound
  | calendarWriteFailed
  | rescheduled
deriving DecidableEq, Repr

/-- Reschedule branch of slot_selected (lines 598-684): find the booking,
best-effort delete its old calendar event, create the new event; on
success write scheduled_at and google_event_id in place and commit.  No
other column and no instance attribute is touched.  The third component
lists the event ids passed to calendar_manager.delete_event. -/
def slot_selected_reschedule (db : DB) (rescheduleBookingId : Int)
    (selectedSlot : Int) (newEventId : Option String) :
    DB × RescheduleResult × List String :=
  match db.bookings.find? (fun b => b.id == rescheduleBookingId) with
  | none => (db, .notFound, [])
  | some b =>
    let deletes := match b.google_event_id with
      | some e => [e]
      | none => []
    match newEventId with
    | none => (db, .calendarWriteFailed, deletes)
    | some eid =>
      ({ db with bookings := db.bookings.map (fun x =>
          if x.id == rescheduleBookingId then
            { x with scheduled_at := selectedSlot, google_event_id := some eid }
          else x) },
       .rescheduled, deletes)

/-- Lines 692-699: resolve-or-create the Client row by discord id; a new
row is added to the session and flushed (receiving the next id) before
the calendar call.  Returns the row the handler works with, the client
table as the session will commit it, and the next autoincrement id. -/
def getOrCreateClient (db : DB) (discordId : String) (displayName : String)
    (now : Int) : Client × List Client × Int :=
  match db.clients.find? (fun c => c.discord_id == discordId) with
  | some c => (c, db.clients, db.nextClientId)
  | none =>
    let c : Client :=
      { id := db.nextClientId, discord_id := discordId,
        discord_name := displayName, created_at := now, total_sessions := 0 }
    (c, db.clients ++ [c], db.nextClientId + 1)

/-- Placeholder rows of the pack loop, lines 735-749: for i in
range(1, quantity), a pending_schedule booking without calendar event,
scheduled_at copied from the selected slot. -/
def packPlaceholders (clientId : Int) (bookingType : String)
    (selectedSlot : Int) (duration : Int) (quantity : Nat)
    (ticketChannelId : Int) (now : Int) (firstId : Int) : List Booking :=
  (List.range (quantity - 1)).map (fun (i : Nat) =>
    { id := firstId + 1 + (i : Int), client_id := clientId, google_event_id := none,
      booking_type := bookingType, scheduled_at := selectedSlot,
      duration_minutes := duration, status := "pending_schedule",
      created_at := now, ticket_channel_id := some (toString ticketChannelId),
      notes := some ("Pack de " ++ toString quantity ++ " séances - Séance "
        ++ toString (i + 2) ++ "/" ++ toString quantity ++ " (à planifier)"),
      extra := [] })

/-- Result of a committed new booking: the committed client row and the
booking rows inserted by this slot selection, first session first. -/
structure NewBookingOk where
  client : Client
  createdBookings : List Booking
deriving DecidableEq, Repr

/-- New-booking branch of slot_selected (lines 686-812).  `none` as the
second component models the CalendarWriteFailed user error (lines
710-716): the handler returns from inside the with-block, and
get_session (database/db.py lines 38-46) commits the session on that
normal exit, so a client row already added and flushed is persisted even
though no booking row is.  On success one confirmed booking carrying the
event id is inserted, then quantity-1 pending_schedule placeholders, and
total_sessions of the client is incremented once. -/
def slot_selected_new (db : DB) (discordId : String) (displayName : String)
    (bookingType : String) (quantity : Nat) (selectedSlot : Int)
    (ticketChannelId : Int) (eventId : Option String) (now : Int) :
    DB × Option NewBookingOk :=
  let gc := getOrCreateClient db discordId displayName now
  let clientRow := gc.1
  match eventId with
  | none =>
    ({ db with clients := gc.2.1, nextClientId := gc.2.2 }, none)
  | some eid =>
    let duration : Int :=
      if bookingType = BOOKING_TYPE_FREE then FREE_COACHING_DURATION
      else PAID_COACHING_DURATION
    let first : Booking :=
      { id := db.nextBookingId, client_id := clientRow.id,
        google_event_id := some eid, booking_type := bookingType,
        scheduled_at := selectedSlot, duration_minutes := duration,
        status := STATUS_CONFIRMED, created_at := now,
        ticket_channel_id := some (toString ticketChannelId),
        notes := if quantity > 1 then
            some ("Pack de " ++ toString quantity ++ " séances - Séance 1/"
              ++ toString quantity)
          else none,
        extra := [] }
    let placeholders := packPlaceholders clientRow.id bookingType selectedSlot
      duration quantity ticketChannelId now db.nextBookingId
    let clientAfter := { clientRow with total_sessions := clientRow.total_sessions + 1 }
    ({ clients := gc.2.1.map (fun c => if c.id == clientRow.id then clientAfter else c),
       bookings := db.bookings ++ first :: placeholders,
       feedbackBookingIds := db.feedbackBookingIds,
       nextClientId := gc.2.2,
       nextBookingId := db.nextBookingId + 1 + (quantity - 1 : Nat) },
     some { client := clientAfter, createdBookings := first :: placeholders })

/-! ### Reminder job (cogs/reminders.py, Reminders.check_reminders, lines 38-73) -/

/-- Python attribute read `booking.<name>` for a boolean attribute that is
not a declared column: present in the instance dictionary or
AttributeError.  models.py declares no reminder_24h_sent and no
reminder_1h_sent column, so on a row loaded from the database
(`extra = []`) this read raises. -/
def Booking.boolAttr (b : Booking) (name : String) : Except String Bool :=
  match b.extra.lookup name with
  | some v => .ok v
  | none => .error ("AttributeError: Booking object has no attribute " ++ name)

/-- Python attribute write `booking.<name> = v` for a name that is not a
declared column: it lands in the instance dictionary only, so it is not
persisted by session.commit(). -/
def Booking.setBoolAttr (b : Booking) (name : String) (v : Bool) : Booking :=
  { b with extra := (name, v) :: b.extra }

/-- Body of the booking loop of check_reminders (lines 52-73) for one
booking: evaluate the 24h condition (line 60-62: enabled flag, then the
reminder_24h_sent attribute read, then the window
23h45m <= time_until <= 24h15m), send and set the flag; then the same
for the 1h reminder with window 45m <= time_until <= 1h15m.  Returns the
booking as left in the session and the reminder kinds sent. -/
def processReminder (now : Int) (b : Booking) :
    Except String (Booking × List String) := do
  let r24 ←
    if REMINDER_24H_ENABLED then do
      let sent ← b.boolAttr "reminder_24h_sent"
      if ¬sent ∧ 1425 ≤ b.scheduled_at - now ∧ b.scheduled_at - now ≤ 1455 then
        pure (b.setBoolAttr "reminder_24h_sent" true, ["24h"])
      else
        pure (b, [])
    else
      pure (b, [])
  let b1 := r24.1
  if REMINDER_1H_ENABLED then do
    let sent ← b1.boolAttr "reminder_1h_sent"
    if ¬sent ∧ 45 ≤ b1.scheduled_at - now ∧ b1.scheduled_at - now ≤ 75 then
      pure (b1.setBoolAttr "reminder_1h_sent" true, r24.2 ++ ["1h"])
    else
      pure (b1, r24.2)
  else
    pure (b1, r24.2)

/-- The for-loop of check_reminders over the queried bookings; an
exception raised for one booking aborts the whole tick (the raise
propagates out of the task body). -/
def remindersLoop (now : Int) :
    List Booking → Except String (List Booking × List (Int × String))
  | [] => .ok ([], [])
  | b :: rest => do
    let r ← processReminder now b
    let rr ← remindersLoop now rest
    pure (r.1 :: rr.1, r.2.map (fun k => (b.id, k)) ++ rr.2)

/-- One tick of check_reminders: query the confirmed bookings scheduled
strictly in the future (lines 46-50) and run the reminder loop on them.
Returns the processed rows and the (booking id, kind) reminders sent, or
the Python exception aborting the tick. -/
def check_reminders (now : Int) (bookings : List Booking) :
    Except String (List Booking × List (Int × String)) :=
  remindersLoop now (bookings.filter (fun b =>
    b.status == STATUS_CONFIRMED && decide (now < b.scheduled_at)))

/-! ### Completion job (cogs/feedback.py, FeedbackCog.check_completed_sessions, lines 33-58) -/

/-- Query predicate of lines 44-49: status confirmed, scheduled_at
strictly inside (now - 1h, now), and no feedback row for the booking. -/
def completionEligible (now : Int) (feedbackIds : List Int) (b : Booking) : Bool :=
  b.status == STATUS_CONFIRMED
    && decide (b.scheduled_at < now)
    && decide (now - 60 < b.scheduled_at)
    && !(feedbackIds.contains b.id)

/-- Line 53-54: the session really ended. -/
def sessionEnded (now : Int) (b : Booking) : Bool :=
  decide (b.scheduled_at + b.duration_minutes ≤ now)

/-- One tick of check_completed_sessions: every queried booking whose
end has passed gets a feedback request and its status set to completed.
Returns the booking table after the tick and the ids of the bookings a
feedback request was sent for. -/
def check_completed_sessions (now : Int) (bookings : List Booking)
    (feedbackIds : List Int) : List Booking × List Int :=
  (bookings.map (fun b =>
      if completionEligible now feedbackIds b && sessionEnded now b then
        { b with status := STATUS_COMPLETED }
      else b),
   ((bookings.filter (completionEligible now feedbackIds)).filter
      (sessionEnded now)).map (fun b => b.id))

/-! ### Pack expiry job (cogs/reminders.py, Reminders.check_pack_expiry, lines 235-255) -/

/-- One tick of check_pack_expiry.  Line 242 evaluates
`now - timedelta(days=config.PACK_EXPIRY_DAYS)` and line 246 filters on
`config.STATUS_PENDING_SCHEDULE`; config.py defines neither attribute,
so the tick raises AttributeError before reading or writing any booking.
The faithful continuation after those reads is kept for reference:
matching bookings would get status cancelled. -/
def check_pack_expiry (now : Int) (bookings : List Booking) :
    Except String (List Booking) :=
  match configIntAttr "PACK_EXPIRY_DAYS" with
  | none => .error "AttributeError: module config has no attribute PACK_EXPIRY_DAYS"
  | some days =>
    match configStrAttr "STATUS_PENDING_SCHEDULE" with
    | none => .error "AttributeError: module config has no attribute STATUS_PENDING_SCHEDULE"
    | some pending =>
      .ok (bookings.map (fun b =>
        if b.status == pending && decide (b.created_at ≤ now - days * 1440) then
          { b with status := STATUS_CANCELLED }
        else b))

/-! ### Ticket admission guard
(cogs/tickets.py, BookingButtonView.booking_button lines 1017-1103 and
Tickets.create_ticket lines 326-428, non-coach path)

Each booking-button press by a non-privileged user is a process stepping
through the suspension points of the handler.  The shared state is the
cog: the global asyncio.Lock, the _creating_tickets set, and the open
ticket channels (represented by their owner's user id, since ownership
is derived from the channel permission overwrites).  Steps of distinct
processes interleave arbitrarily; a process advances past `async with
cog._global_ticket_lock` only when the lock is free. -/

/-- Program counter of one button press, naming the suspension points of
booking_button (non-coach branch). -/
inductive PC
  /-- before `interaction.response.defer()` (line 1035) -/
  | start
  /-- deferred, waiting at `async with cog._global_ticket_lock` (line 1039) -/
  | ready
  /-- lock acquired, about to test `user_id in cog._creating_tickets` (line 1043) -/
  | inCheck
  /-- about to scan the category channels for an owned ticket (lines 1057-1080) -/
  | inScan
  /-- about to run `cog._creating_tickets.add(user_id)` (line 1084) -/
  | inMark
  /-- inside create_ticket, about to run its own duplicate re-check (lines 345-354) -/
  | inCreateCheck
  /-- re-check passed, about to `await category.create_text_channel` (line 393) -/
  | inCreateAdd
  /-- create_ticket returned, in the finally block (lines 1100-1103) -/
  | inFinally
  /-- answered with the please-wait error of lines 1044-1052 (AlreadyInProgress) -/
  | doneAlready
  /-- answered with the existing-ticket error of lines 1072-1080 (DuplicateTicket) -/
  | doneDup
  /-- finally executed, lock released, press finished -/
  | done
deriving DecidableEq, Repr

/-- One in-flight button press: the pressing user and its position. -/
structure Proc where
  user : Nat
  pc : PC
deriving DecidableEq, Repr

/-- Shared cog state plus the in-flight presses. `lock` holds the index
of the process inside `async with`, `creating` is _creating_tickets,
`tickets` lists the owner of every open ticket channel. -/
structure GState where
  lock : Option Nat
  creating : List Nat
  tickets : List Nat
  procs : List Proc
deriving DecidableEq, Repr

/-- Interleaving semantics of concurrent booking_button presses by
non-privileged users.  Each constructor is one step of process `i`
between suspension points. -/
inductive Step : GState → GState → Prop
  /-- line 1035: defer, no shared state touched. -/
  | press {s : GState} {i u} :
      s.procs.get? i = some ⟨u, .start⟩ →
      Step s { s with procs := s.procs.set i ⟨u, .ready⟩ }
  /-- line 1039: acquire the free global lock. -/
  | acquire {s : GState} {i u} :
      s.procs.get? i = some ⟨u, .ready⟩ →
      s.lock = none →
      Step s { s with lock := some i, procs := s.procs.set i ⟨u, .inCheck⟩ }
  /-- lines 1043-1052: the user is in _creating_tickets; answer the
  please-wait error and leave the with-block (releasing the lock). -/
  | checkBusy {s : GState} {i u} :
      s.procs.get? i = some ⟨u, .inCheck⟩ →
      u ∈ s.creating →
      Step s { s with lock := none, procs := s.procs.set i ⟨u, .doneAlready⟩ }
  /-- line 1043 falls through: user not in _creating_tickets. -/
  | checkFree {s : GState} {i u} :
      s.procs.get? i = some ⟨u, .inCheck⟩ →
      u ∉ s.creating →
      Step s { s with procs := s.procs.set i ⟨u, .inScan⟩ }
  /-- lines 1057-1080: the scan finds a ticket owned by the user; answer
  the duplicate error and leave the with-block. -/
  | scanDup {s : GState} {i u} :
      s.procs.get? i = some ⟨u, .inScan⟩ →
      u ∈ s.tickets →
      Step s { s with lock := none, procs := s.procs.set i ⟨u, .doneDup⟩ }
  /-- the scan finds no owned ticket. -/
  | scanClear {s : GState} {i u} :
      s.procs.get? i = some ⟨u, .inScan⟩ →
      u ∉ s.tickets →
      Step s { s with procs := s.procs.set i ⟨u, .inMark⟩ }
  /-- line 1084: add the user to _creating_tickets, then call create_ticket. -/
  | mark {s : GState} {i u} :
      s.procs.get? i = some ⟨u, .inMark⟩ →
      Step s { s with creating := u :: s.creating,
                      procs := s.procs.set i ⟨u, .inCreateCheck⟩ }
  /-- create_ticket lines 345-354: the internal re-check finds an owned
  ticket and returns None without creating anything. -/
  | createRecheckDup {s : GState} {i u} :
      s.procs.get? i = some ⟨u, .inCreateCheck⟩ →
      u ∈ s.tickets →
      Step s { s with procs := s.procs.set i ⟨u, .inFinally⟩ }
  /-- the internal re-check passes. -/
  | createRecheckClear {s : GState} {i u} :
      s.procs.get? i = some ⟨u, .inCreateCheck⟩ →
      u ∉ s.tickets →
      Step s { s with procs := s.procs.set i ⟨u, .inCreateAdd⟩ }
  /-- line 393: the ticket channel is created, owned by the user. -/
  | createAdd {s : GState} {i u} :
      s.procs.get? i = some ⟨u, .inCreateAdd⟩ →
      Step s { s with tickets := u :: s.tickets,
                      procs := s.procs.set i ⟨u, .inFinally⟩ }
  /-- lines 423-428: channel creation fails (Forbidden or other error);
  create_ticket returns None. -/
  | createFail {s : GState} {i u} :
      s.procs.get? i = some ⟨u, .inCreateAdd⟩ →
      Step s { s with procs := s.procs.set i ⟨u, .inFinally⟩ }
  /-- lines 1100-1103: finally discards the user from _creating_tickets
  and the with-block releases the lock. -/
  | finallyRelease {s : GState} {i u} :
      s.procs.get? i = some ⟨u, .inFinally⟩ →
      Step s { s with lock := none, creating := s.creating.erase u,
                      procs := s.procs.set i ⟨u, .done⟩ }

/-- Initial state of a sequence of presses: lock free, _creating_tickets
empty, no open ticket, one process per press, none started. -/
def initState (users : List Nat) : GState :=
  { lock := none, creating := [], tickets := [],
    procs := users.map (fun u => ⟨u, .start⟩) }

/-- States reachable from the initial state of the given press sequence
under arbitrary interleaving. -/
inductive Reachable (users : List Nat) : GState → Prop
  | refl : Reachable users (initState users)
  | tail {s s'} : Reachable users s → Step s s' → Reachable users s'

/-- Program counters strictly inside `async with cog._global_ticket_lock`. -/
def PC.inCrit : PC → Prop
  | .inCheck | .inScan | .inMark | .inCreateCheck | .inCreateAdd | .inFinally => True
  | _ => False

/-- Inductive invariant of the guard: every user owns at most one open
ticket; a process inside the critical section holds the lock (so there
is at most one such process); and a process about to create the channel
passed a scan that found no ticket of its user, a fact no other process
can invalidate while the lock is held. -/
def GuardInv (s : GState) : Prop :=
  (∀ u, s.tickets.count u ≤ 1) ∧
  (∀ i p, s.procs.get? i = some p → p.pc.inCrit → s.lock = some i) ∧
  (∀ i p, s.procs.get? i = some p → p.pc = .inCreateAdd → p.user ∉ s.tickets)

/-! ### Concrete instances used by witnesses and counterexamples -/

/-- A client row. -/
def clientA : Client :=
  { id := 1, discord_id := "42", discord_name := "alice", created_at := 0,
    total_sessions := 3 }

/-- A confirmed booking with a calendar event, as loaded from the
database (no undeclared instance attribute is set). -/
def bookingA : Booking :=
  { id := 1, client_id := 1, google_event_id := some "ev1",
    booking_type := "payant", scheduled_at := 1000, duration_minutes := 60,
    status := "confirmed", created_at := 0, ticket_channel_id := some "99",
    notes := none, extra := [] }

/-- Store holding clientA and bookingA. -/
def dbA : DB :=
  { clients := [clientA], bookings := [bookingA], feedbackBookingIds := [],
    nextClientId := 2, nextBookingId := 2 }

/-- An already cancelled booking. -/
def bookingCancelled : Booking :=
  { bookingA with id := 5, status := "cancelled" }

/-- Store holding clientA and bookingCancelled. -/
def dbCancelled : DB :=
  { clients := [clientA], bookings := [bookingCancelled],
    feedbackBookingIds := [], nextClientId := 2, nextBookingId := 6 }

/-- An empty store. -/
def dbEmpty : DB :=
  { clients := [], bookings := [], feedbackBookingIds := [],
    nextClientId := 1, nextBookingId := 1 }

/-- A confirmed booking scheduled exactly 24 hours after instant 0, as
loaded from the database by the reminder job. -/
def bookingTomorrow : Booking :=
  { bookingA with scheduled_at := 1440 }

/-- A confirmed 60-minute booking that ended one minute before instant
0: scheduled_at + duration_minutes + 1 = 0. -/
def bookingJustEnded : Booking :=
  { bookingA with scheduled_at := -61 }

/-- A pending_schedule placeholder created 31 days before instant 0. -/
def bookingStalePending : Booking :=
  { id := 2, client_id := 1, google_event_id := none,
    booking_type := "payant", scheduled_at := 500, duration_minutes := 60,
    status := "pending_schedule", created_at := -44640,
    ticket_channel_id := some "99",
    notes := some "Pack de 3 séances - Séance 2/3 (à planifier)",
    extra := [] }

/-- Guard state with one press of user 7 waiting at the free lock. -/
def stateW : GState :=
  { lock := none, creating := [], tickets := [], procs := [⟨7, .ready⟩] }

/-- stateW after the press acquires the lock. -/
def stateW' : GState :=
  { lock := some 0, creating := [], tickets := [], procs := [⟨7, .inCheck⟩] }

/-- Guard state mid-flight: press 0 of user 7 holds the global lock and
sits inside create_ticket (user 7 is marked in _creating_tickets), while
press 1 of the same user has deferred and waits at the lock. -/
def stateC9 : GState :=
  { lock := some 0, creating := [7], tickets := [],
    procs := [⟨7, .inCreateCheck⟩, ⟨7, .ready⟩] }

/-! ## Theorems -/

/-- Helper: find? commutes with a map that the predicate cannot see. -/
theorem find?_map_congr {α : Type} (l : List α) (p : α → Bool) (g : α → α)
    (hg : ∀ x, p (g x) = p x) :
    ∀ b, l.find? p = some b → (l.map g).find? p = some (g b) := by
  induction l with
  | nil => intro b h; simp at h
  | cons a t ih =>
    intro b h
    rw [List.find?_cons] at h
    rw [List.map_cons, List.find?_cons]
    cases hpa : p a with
    | true =>
      rw [hpa] at h
      rw [hg a, hpa]
      simpa using congrArg (Option.map g) h
    | false =>
      rw [hpa] at h
      rw [hg a, hpa]
      exact ih b h

/-- C10: for a booking whose status is already cancelled, the
cancel-booking operation answers with an error, leaves every row of the
store unchanged, and calls no calendar delete. -/
theorem handle_cancel_booking_already_cancelled (db : DB) (bookingId : Int)
    (b : Booking)
    (hfind : db.bookings.find? (fun x => x.id == bookingId) = some b)
    (hstatus : b.status = STATUS_CANCELLED) :
    handle_cancel_booking db bookingId = (db, .alreadyCancelled, []) := by
  unfold handle_cancel_booking
  rw [hfind]
  simp [hstatus]

/-- Witness for C10 at a concrete store holding a cancelled booking. -/
theorem handle_cancel_booking_already_cancelled_witness :
    dbCancelled.bookings.find? (fun x => x.id == 5) = some bookingCancelled ∧
    bookingCancelled.status = STATUS_CANCELLED ∧
    handle_cancel_booking dbCancelled 5 = (dbCancelled, .alreadyCancelled, []) :=
  ⟨by decide, by decide,
   handle_cancel_booking_already_cancelled dbCancelled 5 bookingCancelled
     (by decide) (by decide)⟩

/-- C5 counterexample: committing a new booking for a first-time user
while calendar event creation fails leaves the store different from the
initial one — a Client row has been created and committed, refuting
"no database row is written at all". -/
theorem calendar_failure_client_row_counterexample :
    (slot_selected_new dbEmpty "42" "alice" "payant" 3 600 99 none 0).1 ≠ dbEmpty ∧
    (slot_selected_new dbEmpty "42" "alice" "payant" 3 600 99 none 0).1.clients.length = 1 ∧
    (slot_selected_new dbEmpty "42" "alice" "payant" 3 600 99 none 0).1.bookings = [] := by
  refine ⟨by decide, by decide, by decide⟩

/-- C5 (amended): if calendar event creation fails, the user sees the
CalendarWriteFailed error, no Booking row is inserted, feedback rows are
untouched and an existing client row is unmodified; but for a first-time
user the Client row added and flushed before the calendar call is
committed when the session exits. -/
theorem slot_selected_new_calendar_failure (db : DB)
    (discordId displayName bookingType : String) (quantity : Nat)
    (selectedSlot : Int) (ticketChannelId : Int) (now : Int) :
    (slot_selected_new db discordId displayName bookingType quantity
        selectedSlot ticketChannelId none now).2 = none ∧
    (slot_selected_new db discordId displayName bookingType quantity
        selectedSlot ticketChannelId none now).1.bookings = db.bookings ∧
    (slot_selected_new db discordId displayName bookingType quantity
        selectedSlot ticketChannelId none now).1.feedbackBookingIds =
      db.feedbackBookingIds ∧
    (match db.clients.find? (fun c => c.discord_id == discordId) with
     | some _ =>
        (slot_selected_new db discordId displayName bookingType quantity
            selectedSlot ticketChannelId none now).1.clients = db.clients
     | none =>
        ∃ c, (slot_selected_new db discordId displayName bookingType quantity
            selectedSlot ticketChannelId none now).1.clients = db.clients ++ [c]
          ∧ c.discord_id = discordId ∧ c.total_sessions = 0) := by
  cases hfc : db.clients.find? (fun c => c.discord_id == discordId) with
  | some c => simp [slot_selected_new, getOrCreateClient, hfc]
  | none =>
    refine ⟨by simp [slot_selected_new, getOrCreateClient, hfc],
            by simp [slot_selected_new, getOrCreateClient, hfc],
            by simp [slot_selected_new, getOrCreateClient, hfc], ?_⟩
    exact ⟨{ id := db.nextClientId, discord_id := discordId,
             discord_name := displayName, created_at := now,
             total_sessions := 0 },
           by simp [slot_selected_new, getOrCreateClient, hfc], rfl, rfl⟩

/-- C4 counterexample: completing the reschedule flow on a concrete
confirmed booking does not leave the reminder-sent attributes set to
false — the Booking model declares no such columns, the reschedule code
never writes them, so reading either name on the updated row still
raises AttributeError (none) instead of giving false. -/
theorem reschedule_reminder_flags_counterexample :
    ¬ ((((slot_selected_reschedule dbA 1 2000 (some "ev2")).1.bookings.find?
          (fun x => x.id == 1)).bind
            (fun b => b.extra.lookup "reminder_24h_sent") = some false) ∧
       (((slot_selected_reschedule dbA 1 2000 (some "ev2")).1.bookings.find?
          (fun x => x.id == 1)).bind
            (fun b => b.extra.lookup "reminder_1h_sent") = some false)) := by
  decide

/-- C4 (amended): completing the reschedule flow preserves the booking's
id and clientId, updates exactly its scheduledAt and externalEventId
(status, type, duration, creation instant, ticket reference, notes and
the instance attributes are untouched — in particular no reminder-sent
flag exists or is reset), and leaves every other row in place. -/
theorem slot_selected_reschedule_frame (db : DB) (bookingId slot : Int)
    (eid : String) (b : Booking)
    (hfind : db.bookings.find? (fun x => x.id == bookingId) = some b) :
    (slot_selected_reschedule db bookingId slot (some eid)).2.1 = .rescheduled ∧
    (∃ b', (slot_selected_reschedule db bookingId slot (some eid)).1.bookings.find?
        (fun x => x.id == bookingId) = some b' ∧
      b'.id = b.id ∧ b'.client_id = b.client_id ∧
      b'.scheduled_at = slot ∧ b'.google_event_id = some eid ∧
      b'.status = b.status ∧ b'.booking_type = b.booking_type ∧
      b'.duration_minutes = b.duration_minutes ∧ b'.created_at = b.created_at ∧
      b'.ticket_channel_id = b.ticket_channel_id ∧ b'.notes = b.notes ∧
      b'.extra = b.extra) ∧
    (∀ x ∈ db.bookings, x.id ≠ bookingId →
      x ∈ (slot_selected_reschedule db bookingId slot (some eid)).1.bookings) := by
  have hres : slot_selected_reschedule db bookingId slot (some eid) =
      ({ db with bookings := db.bookings.map (fun x =>
          if x.id == bookingId then
            { x with scheduled_at := slot, google_event_id := some eid }
          else x) },
       .rescheduled,
       match b.google_event_id with
       | some e => [e]
       | none => []) := by
    unfold slot_selected_reschedule
    rw [hfind]
  refine ⟨by rw [hres], ?_, ?_⟩
  · have hpb := List.find?_some hfind
    have hmap := find?_map_congr db.bookings (fun x => x.id == bookingId)
      (fun x => if x.id == bookingId then
        { x with scheduled_at := slot, google_event_id := some eid } else x)
      (by intro x; by_cases hx : (x.id == bookingId) = true <;> simp [hx])
      b hfind
    refine ⟨_, by rw [hres]; simpa [hpb] using hmap, ?_⟩
    simp [hpb]
  · intro x hx hne
    rw [hres]
    refine List.mem_map.mpr ⟨x, hx, ?_⟩
    simp [hne]

/-- Witness for the amended C4 at the concrete store dbA. -/
theorem slot_selected_reschedule_frame_witness :
    dbA.bookings.find? (fun x => x.id == 1) = some bookingA ∧
    (slot_selected_reschedule dbA 1 2000 (some "ev2")).2.1 = .rescheduled := by
  refine ⟨by decide, ?_⟩
  exact (slot_selected_reschedule_frame dbA 1 2000 "ev2" bookingA (by decide)).1

/-- C6: one tick of the reminder job over a confirmed booking scheduled
24 hours ahead aborts with AttributeError — models.py declares no
reminder_24h_sent column, so the read on line 61 of cogs/reminders.py
raises on the first queried booking and no reminder is ever sent, let
alone guarded by a persistent sent-flag. -/
theorem check_reminders_attribute_error :
    check_reminders 0 [bookingTomorrow] =
      .error "AttributeError: Booking object has no attribute reminder_24h_sent" := by
  rfl

/-- C7: running the completion job at now = scheduledAt + duration + 1
minute on a confirmed 60-minute booking with no feedback row changes
nothing and requests no feedback: the query keeps only bookings whose
START lies within the last hour, and scheduledAt = now - 61 min falls
outside that window, so the booking is never completed. -/
theorem check_completed_sessions_misses_hour_long_session :
    bookingJustEnded.status = STATUS_CONFIRMED ∧
    bookingJustEnded.scheduled_at + bookingJustEnded.duration_minutes + 1 = 0 ∧
    check_completed_sessions 0 [bookingJustEnded] [] = ([bookingJustEnded], []) := by
  refine ⟨by decide, by decide, by decide⟩

/-- C8: one tick of the pack-expiry job on a stale pending_schedule
booking aborts with AttributeError before touching any row — config.py
defines no PACK_EXPIRY_DAYS (nor STATUS_PENDING_SCHEDULE), so line 242
of cogs/reminders.py raises and the booking is never cancelled. -/
theorem check_pack_expiry_attribute_error :
    bookingStalePending.status = "pending_schedule" ∧
    check_pack_expiry 0 [bookingStalePending] =
      .error "AttributeError: module config has no attribute PACK_EXPIRY_DAYS" :=
  ⟨rfl, rfl⟩

/-- Helper: every placeholder row is pending_schedule, has no calendar
event, copies the selected slot and belongs to the given client. -/
theorem packPlaceholders_fields (clientId : Int) (bookingType : String)
    (selectedSlot duration : Int) (quantity : Nat) (ticketChannelId now firstId : Int) :
    ∀ b ∈ packPlaceholders clientId bookingType selectedSlot duration quantity
        ticketChannelId now firstId,
      b.status = "pending_schedule" ∧ b.google_event_id = none ∧
      b.scheduled_at = selectedSlot ∧ b.client_id = clientId := by
  intro b hb
  simp only [packPlaceholders, List.mem_map, List.mem_range] at hb
  obtain ⟨i, _, rfl⟩ := hb
  exact ⟨rfl, rfl, rfl, rfl⟩

/-- Helper: there are quantity - 1 placeholder rows. -/
theorem packPlaceholders_length (clientId : Int) (bookingType : String)
    (selectedSlot duration : Int) (quantity : Nat) (ticketChannelId now firstId : Int) :
    (packPlaceholders clientId bookingType selectedSlot duration quantity
        ticketChannelId now firstId).length = quantity - 1 := by
  simp only [packPlaceholders, List.length_map, List.length_range]

/-- C3: committing a slot selection for a new booking of an allowed pack
quantity n inserts exactly one confirmed booking carrying the calendar
event id and exactly n-1 pending_schedule bookings carrying none, all
owned by the same client, the placeholders' scheduledAt copied from the
first slot, and increments the client's total_sessions by exactly 1. -/
theorem slot_selected_pack_creation (db : DB)
    (discordId displayName bookingType : String) (quantity : Nat)
    (selectedSlot : Int) (ticketChannelId : Int) (eid : String) (now : Int)
    (hq : quantity ∈ [1, 2, 3, 4, 5, 8]) :
    ∃ ok, (slot_selected_new db discordId displayName bookingType quantity
        selectedSlot ticketChannelId (some eid) now).2 = some ok ∧
      ok.createdBookings.length = quantity ∧
      (ok.createdBookings.filter (fun b => b.status == STATUS_CONFIRMED)).length = 1 ∧
      (∀ b ∈ ok.createdBookings, b.status = STATUS_CONFIRMED →
        b.google_event_id = some eid) ∧
      (ok.createdBookings.filter (fun b => b.status == "pending_schedule")).length
        = quantity - 1 ∧
      (∀ b ∈ ok.createdBookings, b.status = "pending_schedule" →
        b.google_event_id = none ∧ b.scheduled_at = selectedSlot) ∧
      (∀ b ∈ ok.createdBookings, b.client_id = ok.client.id) ∧
      ok.client ∈ (slot_selected_new db discordId displayName bookingType quantity
        selectedSlot ticketChannelId (some eid) now).1.clients ∧
      (slot_selected_new db discordId displayName bookingType quantity
        selectedSlot ticketChannelId (some eid) now).1.bookings
        = db.bookings ++ ok.createdBookings ∧
      ok.client.total_sessions =
        (match db.clients.find? (fun c => c.discord_id == discordId) with
         | some c => c.total_sessions
         | none => 0) + 1 := by
  have hq1 : 1 ≤ quantity := by
    simp only [List.mem_cons, List.mem_singleton] at hq
    rcases hq with rfl | rfl | rfl | rfl | rfl | rfl | h
    · omega
    · omega
    · omega
    · omega
    · omega
    · omega
    · simp at h
  set gc := getOrCreateClient db discordId displayName now with hgc
  set dur : Int :=
    (if bookingType = BOOKING_TYPE_FREE then FREE_COACHING_DURATION
     else PAID_COACHING_DURATION) with hdur
  set first : Booking :=
    { id := db.nextBookingId, client_id := gc.1.id,
      google_event_id := some eid, booking_type := bookingType,
      scheduled_at := selectedSlot, duration_minutes := dur,
      status := STATUS_CONFIRMED, created_at := now,
      ticket_channel_id := some (toString ticketChannelId),
      notes := if quantity > 1 then
          some ("Pack de " ++ toString quantity ++ " séances - Séance 1/"
            ++ toString quantity)
        else none,
      extra := [] } with hfirst
  set placeholders := packPlaceholders gc.1.id bookingType selectedSlot dur
    quantity ticketChannelId now db.nextBookingId with hph
  have hrun : slot_selected_new db discordId displayName bookingType quantity
      selectedSlot ticketChannelId (some eid) now =
      ({ clients := gc.2.1.map (fun c =>
            if c.id == gc.1.id then
              { gc.1 with total_sessions := gc.1.total_sessions + 1 }
            else c),
         bookings := db.bookings ++ first :: placeholders,
         feedbackBookingIds := db.feedbackBookingIds,
         nextClientId := gc.2.2,
         nextBookingId := db.nextBookingId + 1 + (quantity - 1 : Nat) },
       some { client := { gc.1 with total_sessions := gc.1.total_sessions + 1 },
              createdBookings := first :: placeholders }) := by
    rw [slot_selected_new]
  have hphf := packPlaceholders_fields gc.1.id bookingType selectedSlot dur
    quantity ticketChannelId now db.nextBookingId
  have hconf : ∀ b ∈ placeholders, ¬(b.status == STATUS_CONFIRMED) = true := by
    intro b hb
    have := (hphf b hb).1
    simp [this, STATUS_CONFIRMED]
  have hpend : ∀ b ∈ placeholders, (b.status == "pending_schedule") = true := by
    intro b hb
    have := (hphf b hb).1
    simp [this]
  refine ⟨_, by rw [hrun], ?_, ?_, ?_, ?_, ?_, ?_, ?_, ?_, ?_⟩
  · have := packPlaceholders_length gc.1.id bookingType selectedSlot dur
      quantity ticketChannelId now db.nextBookingId
    simp only [List.length_cons, ← hph] at this ⊢
    omega
  · rw [List.filter_cons]
    have hfc : (first.status == STATUS_CONFIRMED) = true := by
      simp [hfirst]
    rw [if_pos hfc, List.filter_eq_nil.mpr hconf]
    rfl
  · intro b hb hst
    rcases List.mem_cons.mp hb with rfl | hb2
    · rfl
    · exact absurd hst (by simp [(hphf b hb2).1, STATUS_CONFIRMED])
  · rw [List.filter_cons]
    have hfc : ¬(first.status == "pending_schedule") = true := by
      simp [hfirst, STATUS_CONFIRMED]
    rw [if_neg hfc, List.filter_eq_self.mpr hpend]
    exact packPlaceholders_length _ _ _ _ _ _ _ _
  · intro b hb hst
    rcases List.mem_cons.mp hb with rfl | hb2
    · exact absurd hst (by simp [hfirst, STATUS_CONFIRMED])
    · exact ⟨(hphf b hb2).2.1, (hphf b hb2).2.2.1⟩
  · intro b hb
    rcases List.mem_cons.mp hb with rfl | hb2
    · rfl
    · exact (hphf b hb2).2.2.2
  · rw [hrun]
    refine List.mem_map.mpr ⟨gc.1, ?_, by simp⟩
    rw [hgc]
    unfold getOrCreateClient
    cases hfc : db.clients.find? (fun c => c.discord_id == discordId) with
    | some c => exact List.mem_of_find?_eq_some hfc
    | none => simp
  · rw [hrun]
  · rw [hgc]
    unfold getOrCreateClient
    cases hfc : db.clients.find? (fun c => c.discord_id == discordId) with
    | some c => simp
    | none => simp

/-- Witness for C3 at quantity 3 on the empty store. -/
theorem slot_selected_pack_creation_witness :
    (3 : Nat) ∈ [1, 2, 3, 4, 5, 8] ∧
    ∃ ok, (slot_selected_new dbEmpty "42" "alice" "payant" 3 600 99
        (some "evX") 0).2 = some ok ∧
      ok.createdBookings.length = 3 ∧
      (ok.createdBookings.filter (fun b => b.status == STATUS_CONFIRMED)).length = 1 ∧
      (∀ b ∈ ok.createdBookings, b.status = STATUS_CONFIRMED →
        b.google_event_id = some "evX") ∧
      (ok.createdBookings.filter (fun b => b.status == "pending_schedule")).length
        = 3 - 1 ∧
      (∀ b ∈ ok.createdBookings, b.status = "pending_schedule" →
        b.google_event_id = none ∧ b.scheduled_at = 600) ∧
      (∀ b ∈ ok.createdBookings, b.client_id = ok.client.id) ∧
      ok.client ∈ (slot_selected_new dbEmpty "42" "alice" "payant" 3 600 99
        (some "evX") 0).1.clients ∧
      (slot_selected_new dbEmpty "42" "alice" "payant" 3 600 99
        (some "evX") 0).1.bookings = dbEmpty.bookings ++ ok.createdBookings ∧
      ok.client.total_sessions =
        (match dbEmpty.clients.find? (fun c => c.discord_id == "42") with
         | some c => c.total_sessions
         | none => 0) + 1 :=
  ⟨by decide,
   slot_selected_pack_creation dbEmpty "42" "alice" "payant" 3 600 99 "evX" 0
     (by decide)⟩

/-- Helper: the candidate cursor never moves backwards, so every
emitted slot is at or after the cursor. -/
theorem slotsLoop_mem_ge (fuel : Nat) :
    ∀ endD events dur c s, s ∈ slotsLoop fuel endD events dur c → c ≤ s := by
  induction fuel with
  | zero =>
    intro endD events dur c s hs
    simp [slotsLoop] at hs
  | succ n ih =>
    intro endD events dur c s hs
    rw [slotsLoop] at hs
    by_cases h1 : c < endD
    · rw [if_pos h1] at hs
      by_cases h2 : hourOf c < 9 ∨ 20 ≤ hourOf c
      · rw [if_pos h2] at hs
        have hges := ih endD events dur (nextDayNine c) s hs
        have hle : c ≤ nextDayNine c := by
          unfold nextDayNine
          have hd := Nat.div_add_mod c 1440
          have hm : c % 1440 < 1440 := Nat.mod_lt _ (by norm_num)
          omega
        omega
      · rw [if_neg h2] at hs
        rcases List.mem_append.mp hs with hl | hr
        · have hsc : s = c := by
            by_cases hav : events.all (fun e => !(overlapsBusy c (c + dur) e)) = true
            · rw [if_pos hav] at hl
              simpa using hl
            · rw [if_neg hav] at hl
              simp at hl
          omega
        · have := ih endD events dur (c + 30) s hr
          omega
    · rw [if_neg h1] at hs
      simp at hs

/-- Helper: every slot emitted from a 30-minute-aligned cursor is
conflict-free against every busy interval, 30-minute aligned, and lies
at a local time from 09:00 up to strictly before 20:00. -/
theorem slotsLoop_mem_facts (fuel : Nat) :
    ∀ endD events dur c s, c % 30 = 0 → s ∈ slotsLoop fuel endD events dur c →
      (∀ e ∈ events, ¬(s < e.2 ∧ s + dur > e.1)) ∧
      s % 30 = 0 ∧ 540 ≤ s % 1440 ∧ hourOf s < 20 := by
  induction fuel with
  | zero =>
    intro endD events dur c s _ hs
    simp [slotsLoop] at hs
  | succ n ih =>
    intro endD events dur c s hc hs
    rw [slotsLoop] at hs
    by_cases h1 : c < endD
    · rw [if_pos h1] at hs
      by_cases h2 : hourOf c < 9 ∨ 20 ≤ hourOf c
      · rw [if_pos h2] at hs
        refine ih endD events dur (nextDayNine c) s ?_ hs
        unfold nextDayNine
        omega
      · rw [if_neg h2] at hs
        rcases List.mem_append.mp hs with hl | hr
        · by_cases hav : events.all (fun e => !(overlapsBusy c (c + dur) e)) = true
          · rw [if_pos hav] at hl
            have hsc : s = c := by simpa using hl
            subst hsc
            push_neg at h2
            have hhour : 9 ≤ hourOf s ∧ hourOf s < 20 := ⟨h2.1, h2.2⟩
            unfold hourOf at hhour
            refine ⟨?_, hc, by omega, ?_⟩
            · intro e he
              have hall := List.all_eq_true.mp hav e he
              simp only [overlapsBusy, Bool.not_eq_eq_eq_not, Bool.not_true,
                Bool.and_eq_false_imp, decide_eq_true_eq,
                decide_eq_false_iff_not] at hall
              intro hcon
              exact hall hcon.1 hcon.2
            · unfold hourOf
              omega
          · rw [if_neg hav] at hl
            simp at hl
        · refine ih endD events dur (c + 30) s (by omega) hr
    · rw [if_neg h1] at hs
      simp at hs

/-- Helper: the emitted slots are strictly increasing. -/
theorem slotsLoop_sorted (fuel : Nat) :
    ∀ endD events dur c, List.Pairwise (· < ·) (slotsLoop fuel endD events dur c) := by
  induction fuel with
  | zero =>
    intro endD events dur c
    simp [slotsLoop]
  | succ n ih =>
    intro endD events dur c
    rw [slotsLoop]
    by_cases h1 : c < endD
    · rw [if_pos h1]
      by_cases h2 : hourOf c < 9 ∨ 20 ≤ hourOf c
      · rw [if_pos h2]
        exact ih endD events dur (nextDayNine c)
      · rw [if_neg h2]
        by_cases hav : events.all (fun e => !(overlapsBusy c (c + dur) e)) = true
        · rw [if_pos hav, List.singleton_append, List.pairwise_cons]
          refine ⟨fun s hs => ?_, ih endD events dur (c + 30)⟩
          have := slotsLoop_mem_ge n endD events dur (c + 30) s hs
          omega
        · rw [if_neg hav, List.nil_append]
          exact ih endD events dur (c + 30)
    · rw [if_neg h1]
      exact List.Pairwise.nil

/-- C2: every slot start the availability resolver returns overlaps no
busy interval reported by the provider under the half-open test (NOT
(s < busyEnd AND s + M > busyStart)), the returned slots are in
chronological order, each is 30-minute aligned at a local time from
09:00 with start hour strictly before 20, and a slot whose end exceeds
20:00 is still offered (witnessed by the 19:30 start, minute 1170, for a
60-minute duration: its end 20:30 passes close of business). -/
theorem get_available_slots_spec :
    (∀ startD endD events dur s, s ∈ get_available_slots startD endD events dur →
      (∀ e ∈ events, ¬(s < e.2 ∧ s + dur > e.1)) ∧
      s % 30 = 0 ∧ 540 ≤ s % 1440 ∧ hourOf s < 20) ∧
    (∀ startD endD events dur,
      List.Pairwise (· < ·) (get_available_slots startD endD events dur)) ∧
    (1170 ∈ get_available_slots 0 1440 [] 60 ∧ 1200 < 1170 + 60) := by
  refine ⟨?_, ?_, by decide, by decide⟩
  · intro startD endD events dur s hs
    exact slotsLoop_mem_facts endD endD events dur _ s (by omega) hs
  · intro startD endD events dur
    exact slotsLoop_sorted endD endD events dur _

/-- Witness for C2: 09:00 (minute 540) is returned on a day with one
busy interval 10:00-11:00 (minutes 600-660) for a 60-minute duration,
and the theorem's guarantees hold for it. -/
theorem get_available_slots_spec_witness :
    540 ∈ get_available_slots 0 1440 [(600, 660)] 60 ∧
    ((∀ e ∈ [((600 : Nat), (660 : Nat))], ¬(540 < e.2 ∧ 540 + 60 > e.1)) ∧
      540 % 30 = 0 ∧ 540 ≤ 540 % 1440 ∧ hourOf 540 < 20) :=
  ⟨by decide,
   get_available_slots_spec.1 0 1440 [(600, 660)] 60 540 (by decide)⟩

/-- Helper: reading an updated process list at the written index. -/
theorem get?_set_cases {α : Type} {l : List α} {i j : Nat} {q p : α}
    (h : (l.set i q).get? j = some p) :
    (j = i ∧ p = q) ∨ (j ≠ i ∧ l.get? j = some p) := by
  by_cases hj : j = i
  · subst hj
    rw [List.get?_set_eq] at h
    cases hl : l.get? j with
    | none => rw [hl] at h; simp at h
    | some x =>
      rw [hl] at h
      simp at h
      exact Or.inl ⟨rfl, h.symm⟩
  · right
    refine ⟨hj, ?_⟩
    rwa [List.get?_set_ne _ _ (Ne.symm hj)] at h

/-- Helper: reading an updated process list at the written index when
the index is in bounds. -/
theorem get?_set_self {α : Type} {l : List α} {i : Nat} {q p : α}
    (h : l.get? i = some p) : (l.set i q).get? i = some q := by
  rw [List.get?_set_eq, h]
  rfl

/-- Helper: the guard invariant holds initially. -/
theorem guardInv_init (users : List Nat) : GuardInv (initState users) := by
  refine ⟨by simp [initState], ?_, ?_⟩
  · intro i p hp hcrit
    rw [initState] at hp
    simp only [List.get?_map] at hp
    cases hu : users.get? i with
    | none => rw [hu] at hp; simp at hp
    | some u =>
      rw [hu] at hp
      simp at hp
      rw [← hp] at hcrit
      exact hcrit.elim
  · intro i p hp hpc
    rw [initState] at hp
    simp only [List.get?_map] at hp
    cases hu : users.get? i with
    | none => rw [hu] at hp; simp at hp
    | some u =>
      rw [hu] at hp
      simp at hp
      rw [← hp] at hpc
      simp at hpc

/-- Helper: every step of the booking-button transition system
preserves the guard invariant. -/
theorem guardInv_step {s s' : GState} (hinv : GuardInv s) (hstep : Step s s') :
    GuardInv s' := by
  obtain ⟨hA, hB, hC⟩ := hinv
  cases hstep with
  | press h =>
    rename_i i u
    refine ⟨hA, ?_, ?_⟩
    · intro j p hj hcrit
      rcases get?_set_cases hj with ⟨rfl, rfl⟩ | ⟨hne, hold⟩
      · exact hcrit.elim
      · exact hB j p hold hcrit
    · intro j p hj hpc
      rcases get?_set_cases hj with ⟨rfl, rfl⟩ | ⟨hne, hold⟩
      · simp at hpc
      · exact hC j p hold hpc
  | acquire h hl =>
    rename_i i u
    refine ⟨hA, ?_, ?_⟩
    · intro j p hj hcrit
      rcases get?_set_cases hj with ⟨rfl, rfl⟩ | ⟨hne, hold⟩
      · rfl
      · exact absurd (hB j p hold hcrit) (by rw [hl]; simp)
    · intro j p hj hpc
      rcases get?_set_cases hj with ⟨rfl, rfl⟩ | ⟨hne, hold⟩
      · simp at hpc
      · exact hC j p hold hpc
  | checkBusy h hmem =>
    rename_i i u
    refine ⟨hA, ?_, ?_⟩
    · intro j p hj hcrit
      rcases get?_set_cases hj with ⟨rfl, rfl⟩ | ⟨hne, hold⟩
      · exact hcrit.elim
      · have h1 := hB j p hold hcrit
        have h2 := hB _ ⟨u, .inCheck⟩ h trivial
        rw [h2] at h1
        exact absurd (Option.some.inj h1).symm hne
    · intro j p hj hpc
      rcases get?_set_cases hj with ⟨rfl, rfl⟩ | ⟨hne, hold⟩
      · simp at hpc
      · exact hC j p hold hpc
  | checkFree h hmem =>
    rename_i i u
    refine ⟨hA, ?_, ?_⟩
    · intro j p hj hcrit
      rcases get?_set_cases hj with ⟨rfl, rfl⟩ | ⟨hne, hold⟩
      · exact hB _ ⟨u, .inCheck⟩ h trivial
      · exact hB j p hold hcrit
    · intro j p hj hpc
      rcases get?_set_cases hj with ⟨rfl, rfl⟩ | ⟨hne, hold⟩
      · simp at hpc
      · exact hC j p hold hpc
  | scanDup h hmem =>
    rename_i i u
    refine ⟨hA, ?_, ?_⟩
    · intro j p hj hcrit
      rcases get?_set_cases hj with ⟨rfl, rfl⟩ | ⟨hne, hold⟩
      · exact hcrit.elim
      · have h1 := hB j p hold hcrit
        have h2 := hB _ ⟨u, .inScan⟩ h trivial
        rw [h2] at h1
        exact absurd (Option.some.inj h1).symm hne
    · intro j p hj hpc
      rcases get?_set_cases hj with ⟨rfl, rfl⟩ | ⟨hne, hold⟩
      · simp at hpc
      · exact hC j p hold hpc
  | scanClear h hmem =>
    rename_i i u
    refine ⟨hA, ?_, ?_⟩
    · intro j p hj hcrit
      rcases get?_set_cases hj with ⟨rfl, rfl⟩ | ⟨hne, hold⟩
      · exact hB _ ⟨u, .inScan⟩ h trivial
      · exact hB j p hold hcrit
    · intro j p hj hpc
      rcases get?_set_cases hj with ⟨rfl, rfl⟩ | ⟨hne, hold⟩
      · simp at hpc
      · exact hC j p hold hpc
  | mark h =>
    rename_i i u
    refine ⟨hA, ?_, ?_⟩
    · intro j p hj hcrit
      rcases get?_set_cases hj with ⟨rfl, rfl⟩ | ⟨hne, hold⟩
      · exact hB _ ⟨u, .inMark⟩ h trivial
      · exact hB j p hold hcrit
    · intro j p hj hpc
      rcases get?_set_cases hj with ⟨rfl, rfl⟩ | ⟨hne, hold⟩
      · simp at hpc
      · exact hC j p hold hpc
  | createRecheckDup h hmem =>
    rename_i i u
    refine ⟨hA, ?_, ?_⟩
    · intro j p hj hcrit
      rcases get?_set_cases hj with ⟨rfl, rfl⟩ | ⟨hne, hold⟩
      · exact hB _ ⟨u, .inCreateCheck⟩ h trivial
      · exact hB j p hold hcrit
    · intro j p hj hpc
      rcases get?_set_cases hj with ⟨rfl, rfl⟩ | ⟨hne, hold⟩
      · simp at hpc
      · exact hC j p hold hpc
  | createRecheckClear h hmem =>
    rename_i i u
    refine ⟨hA, ?_, ?_⟩
    · intro j p hj hcrit
      rcases get?_set_cases hj with ⟨rfl, rfl⟩ | ⟨hne, hold⟩
      · exact hB _ ⟨u, .inCreateCheck⟩ h trivial
      · exact hB j p hold hcrit
    · intro j p hj hpc
      rcases get?_set_cases hj with ⟨rfl, rfl⟩ | ⟨hne, hold⟩
      · exact hmem
      · exact hC j p hold hpc
  | createAdd h =>
    rename_i i u
    have hnotin : u ∉ s.tickets := hC i ⟨u, .inCreateAdd⟩ h rfl
    refine ⟨?_, ?_, ?_⟩
    · intro v
      show (u :: s.tickets).count v ≤ 1
      rw [List.count_cons]
      by_cases hv : u = v
      · subst hv
        have : s.tickets.count u = 0 := List.count_eq_zero.mpr hnotin
        simp [this]
      · simp only [beq_iff_eq, if_neg hv]
        simpa using hA v
    · intro j p hj hcrit
      rcases get?_set_cases hj with ⟨rfl, rfl⟩ | ⟨hne, hold⟩
      · exact hB _ ⟨u, .inCreateAdd⟩ h trivial
      · exact hB j p hold hcrit
    · intro j p hj hpc
      rcases get?_set_cases hj with ⟨rfl, rfl⟩ | ⟨hne, hold⟩
      · simp at hpc
      · have h1 := hB j p hold (by rw [hpc]; trivial)
        have h2 := hB _ ⟨u, .inCreateAdd⟩ h trivial
        rw [h2] at h1
        exact absurd (Option.some.inj h1).symm hne
  | createFail h =>
    rename_i i u
    refine ⟨hA, ?_, ?_⟩
    · intro j p hj hcrit
      rcases get?_set_cases hj with ⟨rfl, rfl⟩ | ⟨hne, hold⟩
      · exact hB _ ⟨u, .inCreateAdd⟩ h trivial
      · exact hB j p hold hcrit
    · intro j p hj hpc
      rcases get?_set_cases hj with ⟨rfl, rfl⟩ | ⟨hne, hold⟩
      · simp at hpc
      · exact hC j p hold hpc
  | finallyRelease h =>
    rename_i i u
    refine ⟨hA, ?_, ?_⟩
    · intro j p hj hcrit
      rcases get?_set_cases hj with ⟨rfl, rfl⟩ | ⟨hne, hold⟩
      · exact hcrit.elim
      · have h1 := hB j p hold hcrit
        have h2 := hB _ ⟨u, .inFinally⟩ h trivial
        rw [h2] at h1
        exact absurd (Option.some.inj h1).symm hne
    · intro j p hj hpc
      rcases get?_set_cases hj with ⟨rfl, rfl⟩ | ⟨hne, hold⟩
      · simp at hpc
      · exact hC j p hold hpc

/-- Helper: every reachable state satisfies the guard invariant. -/
theorem reachable_guardInv {users : List Nat} {s : GState}
    (h : Reachable users s) : GuardInv s := by
  induction h with
  | refl => exact guardInv_init users
  | tail _ hstep ih => exact guardInv_step ih hstep

/-- C1: for every sequence of concurrent booking-button presses by
non-privileged users, interleaved at any suspension point, every
reachable state of the guard transition system holds at most one open
ticket per user — in particular at most one ticket is ever created for
the pressing user. -/
theorem booking_button_single_ticket_invariant :
    ∀ (users : List Nat) (s : GState), Reachable users s →
      ∀ u, s.tickets.count u ≤ 1 :=
  fun _ _ h u => (reachable_guardInv h).1 u

/-- Witness for C1: two presses by user 7, at the initial state. -/
theorem booking_button_single_ticket_invariant_witness :
    Reachable [7, 7] (initState [7, 7]) ∧
    (initState [7, 7]).tickets.count 7 ≤ 1 :=
  ⟨Reachable.refl,
   booking_button_single_ticket_invariant [7, 7] _ Reachable.refl 7⟩

/-- C9 counterexample: stateC9 is reachable — press 0 of user 7 sits
inside create_ticket holding the global lock with user 7 marked in
_creating_tickets, and press 1 of the same user has deferred — yet
press 1 cannot step to the AlreadyInProgress outcome: the marker set is
checked only after the lock is acquired, so the second press blocks at
the lock instead of failing immediately, refuting the claim that the
check precedes lock acquisition. -/
theorem creating_set_check_not_before_lock_counterexample :
    Reachable [7, 7] stateC9 ∧
    stateC9.procs.get? 1 = some ⟨7, .ready⟩ ∧
    7 ∈ stateC9.creating ∧
    stateC9.lock = some 0 ∧
    ¬ ∃ s', Step stateC9 s' ∧ s'.procs.get? 1 = some ⟨7, PC.doneAlready⟩ := by
  refine ⟨?_, rfl, by decide, rfl, ?_⟩
  · have r0 : Reachable [7, 7] (initState [7, 7]) := Reachable.refl
    have r1 := r0.tail (Step.press (i := 0) (u := 7) rfl)
    have r2 := r1.tail (Step.acquire (i := 0) (u := 7) rfl rfl)
    have r3 := r2.tail (Step.checkFree (i := 0) (u := 7) rfl (by decide))
    have r4 := r3.tail (Step.scanClear (i := 0) (u := 7) rfl (by decide))
    have r5 := r4.tail (Step.mark (i := 0) (u := 7) rfl)
    have r6 := r5.tail (Step.press (i := 1) (u := 7) rfl)
    exact r6
  · rintro ⟨s', hstep, hpc⟩
    cases hstep with
    | press h =>
      rename_i i u
      rcases i with _ | _ | i <;> simp_all [stateC9]
    | acquire h hl =>
      rename_i i u
      rcases i with _ | _ | i <;> simp_all [stateC9]
    | checkBusy h hmem =>
      rename_i i u
      rcases i with _ | _ | i <;> simp_all [stateC9]
    | checkFree h hmem =>
      rename_i i u
      rcases i with _ | _ | i <;> simp_all [stateC9]
    | scanDup h hmem =>
      rename_i i u
      rcases i with _ | _ | i <;> simp_all [stateC9]
    | scanClear h hmem =>
      rename_i i u
      rcases i with _ | _ | i <;> simp_all [stateC9]
    | mark h =>
      rename_i i u
      rcases i with _ | _ | i <;> simp_all [stateC9]
    | createRecheckDup h hmem =>
      rename_i i u
      rcases i with _ | _ | i <;> simp_all [stateC9]
    | createRecheckClear h hmem =>
      rename_i i u
      rcases i with _ | _ | i <;> simp_all [stateC9]
    | createAdd h =>
      rename_i i u
      rcases i with _ | _ | i <;> simp_all [stateC9]
    | createFail h =>
      rename_i i u
      rcases i with _ | _ | i <;> simp_all [stateC9]
    | finallyRelease h =>
      rename_i i u
      rcases i with _ | _ | i <;> simp_all [stateC9]

/-- C9 (amended): the per-user creating marker is consulted first thing
INSIDE the critical section.  A press waiting at the lock can only move
to the post-acquisition check, and only when the lock is free; and the
AlreadyInProgress outcome arises only from that post-acquisition
program point with the user already marked — never directly from the
pre-lock position. -/
theorem creating_set_check_inside_lock :
    ∀ (s s' : GState) (i u : Nat), Step s s' →
    ((s.procs.get? i = some ⟨u, .ready⟩ →
        s'.procs.get? i = some ⟨u, .ready⟩ ∨
        (s'.procs.get? i = some ⟨u, .inCheck⟩ ∧ s.lock = none)) ∧
     (s'.procs.get? i = some ⟨u, .doneAlready⟩ →
        s.procs.get? i = some ⟨u, .doneAlready⟩ ∨
        (s.procs.get? i = some ⟨u, .inCheck⟩ ∧ u ∈ s.creating))) := by
  intro s s' i u hstep
  cases hstep with
  | press h =>
    rename_i j v
    refine ⟨?_, ?_⟩
    · intro hr
      by_cases hij : i = j
      · subst hij; rw [h] at hr; simp at hr
      · exact Or.inl (by rwa [List.get?_set_ne _ _ (fun hh => hij hh.symm)])
    · intro hd
      rcases get?_set_cases hd with ⟨hij, heq⟩ | ⟨hne, hold⟩
      · simp at heq
      · exact Or.inl hold
  | acquire h hl =>
    rename_i j v
    refine ⟨?_, ?_⟩
    · intro hr
      by_cases hij : i = j
      · subst hij
        rw [h] at hr
        simp only [Option.some.injEq, Proc.mk.injEq] at hr
        obtain ⟨rfl, -⟩ := hr
        exact Or.inr ⟨get?_set_self h, hl⟩
      · exact Or.inl (by rwa [List.get?_set_ne _ _ (fun hh => hij hh.symm)])
    · intro hd
      rcases get?_set_cases hd with ⟨hij, heq⟩ | ⟨hne, hold⟩
      · simp at heq
      · exact Or.inl hold
  | checkBusy h hmem =>
    rename_i j v
    refine ⟨?_, ?_⟩
    · intro hr
      by_cases hij : i = j
      · subst hij; rw [h] at hr; simp at hr
      · exact Or.inl (by rwa [List.get?_set_ne _ _ (fun hh => hij hh.symm)])
    · intro hd
      rcases get?_set_cases hd with ⟨hij, heq⟩ | ⟨hne, hold⟩
      · subst hij
        simp only [Proc.mk.injEq] at heq
        obtain ⟨rfl, -⟩ := heq
        exact Or.inr ⟨h, hmem⟩
      · exact Or.inl hold
  | checkFree h hmem =>
    rename_i j v
    refine ⟨?_, ?_⟩
    · intro hr
      by_cases hij : i = j
      · subst hij; rw [h] at hr; simp at hr
      · exact Or.inl (by rwa [List.get?_set_ne _ _ (fun hh => hij hh.symm)])
    · intro hd
      rcases get?_set_cases hd with ⟨hij, heq⟩ | ⟨hne, hold⟩
      · simp at heq
      · exact Or.inl hold
  | scanDup h hmem =>
    rename_i j v
    refine ⟨?_, ?_⟩
    · intro hr
      by_cases hij : i = j
      · subst hij; rw [h] at hr; simp at hr
      · exact Or.inl (by rwa [List.get?_set_ne _ _ (fun hh => hij hh.symm)])
    · intro hd
      rcases get?_set_cases hd with ⟨hij, heq⟩ | ⟨hne, hold⟩
      · simp at heq
      · exact Or.inl hold
  | scanClear h hmem =>
    rename_i j v
    refine ⟨?_, ?_⟩
    · intro hr
      by_cases hij : i = j
      · subst hij; rw [h] at hr; simp at hr
      · exact Or.inl (by rwa [List.get?_set_ne _ _ (fun hh => hij hh.symm)])
    · intro hd
      rcases get?_set_cases hd with ⟨hij, heq⟩ | ⟨hne, hold⟩
      · simp at heq
      · exact Or.inl hold
  | mark h =>
    rename_i j v
    refine ⟨?_, ?_⟩
    · intro hr
      by_cases hij : i = j
      · subst hij; rw [h] at hr; simp at hr
      · exact Or.inl (by rwa [List.get?_set_ne _ _ (fun hh => hij hh.symm)])
    · intro hd
      rcases get?_set_cases hd with ⟨hij, heq⟩ | ⟨hne, hold⟩
      · simp at heq
      · exact Or.inl hold
  | createRecheckDup h hmem =>
    rename_i j v
    refine ⟨?_, ?_⟩
    · intro hr
      by_cases hij : i = j
      · subst hij; rw [h] at hr; simp at hr
      · exact Or.inl (by rwa [List.get?_set_ne _ _ (fun hh => hij hh.symm)])
    · intro hd
      rcases get?_set_cases hd with ⟨hij, heq⟩ | ⟨hne, hold⟩
      · simp at heq
      · exact Or.inl hold
  | createRecheckClear h hmem =>
    rename_i j v
    refine ⟨?_, ?_⟩
    · intro hr
      by_cases hij : i = j
      · subst hij; rw [h] at hr; simp at hr
      · exact Or.inl (by rwa [List.get?_set_ne _ _ (fun hh => hij hh.symm)])
    · intro hd
      rcases get?_set_cases hd with ⟨hij, heq⟩ | ⟨hne, hold⟩
      · simp at heq
      · exact Or.inl hold
  | createAdd h =>
    rename_i j v
    refine ⟨?_, ?_⟩
    · intro hr
      by_cases hij : i = j
      · subst hij; rw [h] at hr; simp at hr
      · exact Or.inl (by rwa [List.get?_set_ne _ _ (fun hh => hij hh.symm)])
    · intro hd
      rcases get?_set_cases hd with ⟨hij, heq⟩ | ⟨hne, hold⟩
      · simp at heq
      · exact Or.inl hold
  | createFail h =>
    rename_i j v
    refine ⟨?_, ?_⟩
    · intro hr
      by_cases hij : i = j
      · subst hij; rw [h] at hr; simp at hr
      · exact Or.inl (by rwa [List.get?_set_ne _ _ (fun hh => hij hh.symm)])
    · intro hd
      rcases get?_set_cases hd with ⟨hij, heq⟩ | ⟨hne, hold⟩
      · simp at heq
      · exact Or.inl hold
  | finallyRelease h =>
    rename_i j v
    refine ⟨?_, ?_⟩
    · intro hr
      by_cases hij : i = j
      · subst hij; rw [h] at hr; simp at hr
      · exact Or.inl (by rwa [List.get?_set_ne _ _ (fun hh => hij hh.symm)])
    · intro hd
      rcases get?_set_cases hd with ⟨hij, heq⟩ | ⟨hne, hold⟩
      · simp at heq
      · exact Or.inl hold

/-- Witness for the amended C9: a single press of user 7 waiting at the
free lock steps to the post-acquisition check. -/
theorem creating_set_check_inside_lock_witness :
    (stateW.procs.get? 0 = some ⟨7, .ready⟩ →
       stateW'.procs.get? 0 = some ⟨7, .ready⟩ ∨
       (stateW'.procs.get? 0 = some ⟨7, .inCheck⟩ ∧ stateW.lock = none)) ∧
    (stateW'.procs.get? 0 = some ⟨7, .doneAlready⟩ →
       stateW.procs.get? 0 = some ⟨7, .doneAlready⟩ ∨
       (stateW.procs.get? 0 = some ⟨7, .inCheck⟩ ∧ 7 ∈ stateW.creating)) :=
  creating_set_check_inside_lock stateW stateW' 0 7
    (Step.acquire (i := 0) (u := 7) rfl rfl)

end Botdiscord
